import Mathlib

/-!
Shallow embedding of `src/services/providers/helpers/giteaHelper.js`.

The JS module is effectful: it performs HTTP requests (via `networkSvc`),
reads and mutates a Vuex store (tokens, modal dialogs, settings), and reads
the clock.  We model an execution as a pure function of an `Env` — a snapshot
of every external collaborator's behaviour (network responses, store
contents, `Date.now()`, the offline flag) — returning the list of observable
effect `Event`s issued, in order, together with the final result
(`Except ErrVal α`, where `Except.error` models a rejected promise / thrown
exception).
-/

deriving instance DecidableEq for Except

namespace GiteaHelper

/-- A JS error value: an optional HTTP `status` (absent on plain `Error`s and
runtime exceptions) and a message. -/
structure ErrVal where
  status : Option Int
  message : String
deriving DecidableEq, Repr

/-- Body returned by the provider's `POST /login/oauth/access_token`
endpoint. -/
structure TokenBody where
  access_token : String
  refresh_token : Option String
  expires_in : Int
deriving DecidableEq, Repr

/-- Body returned by the provider's `GET user` / `GET users/{username}`
endpoints (the fields the source reads). -/
structure UserProfile where
  username : String
  avatar_url : Option String
deriving DecidableEq, Repr

/-- The Account Token object built by `startOauth2` and stored in the Token
Store.  `expiresOn` is `none` for legacy tokens that predate expiration
tracking. -/
structure Token where
  accessToken : String
  name : String
  applicationId : String
  applicationSecret : String
  refreshToken : Option String
  expiresOn : Option Int
  serverUrl : String
  sub : String
deriving DecidableEq, Repr

/-- Request body of the `POST/PUT/DELETE repos/{id}/contents/{path}` calls:
`content` is `none` for the delete call (the source omits the field there),
`sha` is `none` when the caller passed no `sha` (JS `undefined`). -/
structure ContentsBody where
  message : String
  content : Option String
  sha : Option String
  branch : String
deriving DecidableEq, Repr

/-- Response body of a repository API call; only `sha` and `content` are ever
destructured by the source (in `downloadFile`), other responses are returned
opaquely. -/
structure ApiResp where
  sha : String
  content : String
deriving DecidableEq, Repr

/-- Result of the registered identity resolver. -/
structure ResolvedInfo where
  id : String
  name : String
  imageUrl : String
deriving DecidableEq, Repr

/-- Observable effects, in program order:
network calls (`oauthAuthorize` = the interactive `networkSvc.startOauth2`
popup, `tokenRequest` = `POST login/oauth/access_token` with the given grant
type, `userRequest` = authenticated `GET user`, `apiRequest` = any
`{serverUrl}/api/v1/...` repository call) and store dispatches
(`addUserInfo`, `modalOpen` = `dispatch('modal/open', {type, name})`,
`addGiteaToken` = `dispatch('data/addGiteaToken', token)`). -/
inductive Event where
  | oauthAuthorize (serverUrl : String) (silent : Bool)
  | tokenRequest (serverUrl : String) (grantType : String)
  | userRequest (serverUrl : String)
  | apiRequest (method : String) (url : String)
      (params : List (String × String)) (body : Option ContentsBody)
  | addUserInfo (id : String) (name : String) (imageUrl : String)
  | modalOpen (modalType : String) (modalName : String)
  | addGiteaToken (token : Token)
deriving DecidableEq, Repr

/-- Network events, as opposed to store dispatches. -/
def Event.isNetwork : Event → Bool
  | .oauthAuthorize _ _ => true
  | .tokenRequest _ _ => true
  | .userRequest _ => true
  | .apiRequest _ _ _ _ => true
  | _ => false

/-- Snapshot of every external collaborator: the clock, the offline flag,
the Token Store, the settings store, and the response each network endpoint
would return.  `Except.error` models a rejected request. -/
structure Env where
  now : Int
  offline : Bool
  tokensBySub : String → Option Token
  gitSettings : String → String
  oauthCode : Except ErrVal String
  codeExchange : Except ErrVal TokenBody
  refreshExchange : Option String → Except ErrVal TokenBody
  userEndpoint : Except ErrVal UserProfile
  userLookup : String → String → Except ErrVal UserProfile
  apiResult : String → String → Except ErrVal ApiResp
  encodeBase64 : String → String
  decodeBase64 : String → String
  encodeURIComponent : String → String

/-- JS truthiness of an optional number (`undefined` and `0` are falsy). -/
def jsTruthyInt : Option Int → Bool
  | none => false
  | some n => n ≠ 0

/-- JS truthiness of an optional string (`undefined` and `""` are falsy). -/
def jsTruthyStr : Option String → Bool
  | none => false
  | some s => s ≠ ""

/-- The runtime `TypeError` raised when the source dereferences a property of
`undefined` (e.g. `lastToken.expiresOn` with no stored token) or destructures
a failed regex match. -/
def jsTypeError : ErrVal := { status := none, message := "TypeError" }

/-- Source: `throw new Error('Gitea account ID not expected.')`. -/
def giteaAccountMismatch : ErrVal :=
  { status := none, message := "Gitea account ID not expected." }

/-- Source: `throw new Error('RETRY')` in the identity resolver. -/
def retryError : ErrVal := { status := none, message := "RETRY" }

/-- Source: `const tokenExpirationMargin = 5 * 60 * 1000;`. -/
def tokenExpirationMargin : Int := 5 * 60 * 1000

/-- Source: `const subPrefix = 'gt';`. -/
def subTag : String := "gt"

/-- Split a character list at every occurrence of `sep` (the semantics of
JS `String.prototype.split` with a single-character separator, and of Lean's
`String.splitOn`, but defined structurally so that it computes by kernel
reduction). -/
def splitOnChar (sep : Char) : List Char → List (List Char)
  | [] => [[]]
  | c :: cs =>
    match splitOnChar sep cs with
    | [] => [[]]
    | p :: ps => if c = sep then [] :: p :: ps else (c :: p) :: ps

/-- The '/'-delimited segments of a string. -/
def splitSlash (s : String) : List String :=
  (splitOnChar '/' s.data).map fun cs => String.mk cs

/-- Source: `sub.match(/^(.+)\/([^/]+)$/)` — splits an opaque sub at its last
slash into `(serverUrl, username)`; `none` when the regex does not match
(no slash, nothing before the last slash, or nothing after it). -/
def parseSub (sub : String) : Option (String × String) :=
  match (splitSlash sub).reverse with
  | [] => none
  | y :: rest =>
    if rest.isEmpty then none
    else
      let a := String.intercalate "/" rest.reverse
      if a ≠ "" ∧ y ≠ "" then some (a, y) else none

/-- Source: `projectPath.match(/([^/]+\/[^/]+)$/)` — the last two
'/'-delimited segments of the path, when both are nonempty; `none` when the
regex does not match. -/
def lastTwoSegments (s : String) : Option String :=
  match (splitSlash s).reverse with
  | y :: x :: _ => if x ≠ "" ∧ y ≠ "" then some (x ++ "/" ++ y) else none
  | _ => none

/-- Source: `getCommitMessage` — looks up the message template in
`data/computedSettings.git[name]` and substitutes every `\x7b\x7bpath\x7d\x7d`
placeholder with the literal path. -/
def getCommitMessage (env : Env) (name path : String) : String :=
  (env.gitSettings name).replace "\x7b\x7bpath\x7d\x7d" path

/-- The identity resolver registered via
`userSvc.setInfoResolver('gitea', subPrefix, async (sub) => ...)`:
parse the sub, fetch `GET {serverUrl}/api/v1/users/{username}`, and build
`{id, name, imageUrl}`; in the catch block any failure whose `status` is not
404 is rethrown as `Error('RETRY')`, a 404 is rethrown as-is. -/
def giteaInfoResolver (env : Env) (sub : String) : Except ErrVal ResolvedInfo :=
  let tryBlock : Except ErrVal ResolvedInfo :=
    match parseSub sub with
    | none => Except.error jsTypeError
    | some (serverUrl, username) =>
      match env.userLookup serverUrl username with
      | Except.error e => Except.error e
      | Except.ok user =>
        let uniqueSub := serverUrl ++ "/" ++ user.username
        Except.ok
          { id := subTag ++ ":" ++ uniqueSub
            name := user.username
            imageUrl := user.avatar_url.getD "" }
  match tryBlock with
  | Except.ok v => Except.ok v
  | Except.error err =>
    if err.status ≠ some 404 then Except.error retryError
    else Except.error err

/-- First phase of `startOauth2`: obtain a `tokenBody`.  Interactive
(`silent = false`): run the OAuth2 authorize popup, then exchange the code at
the token endpoint with `grant_type: 'authorization_code'`.  Silent: exchange
the stored refresh token with `grant_type: 'refresh_token'`. -/
def acquireTokenBody (env : Env) (serverUrl : String)
    (silent : Bool) (refreshTok : Option String) :
    List Event × Except ErrVal TokenBody :=
  if silent = false then
    match env.oauthCode with
    | Except.error e => ([Event.oauthAuthorize serverUrl silent], Except.error e)
    | Except.ok _code =>
      ([Event.oauthAuthorize serverUrl silent,
        Event.tokenRequest serverUrl "authorization_code"],
       env.codeExchange)
  else
    ([Event.tokenRequest serverUrl "refresh_token"],
     env.refreshExchange refreshTok)

/-- Source: `startOauth2(serverUrl, applicationId, applicationSecret, sub,
silent, refreshToken)` — obtain a token body (interactively or silently),
call the authenticated `GET user` endpoint, record the user info, reject with
`'Gitea account ID not expected.'` when a (truthy) expected `sub` differs
from the resolved one, otherwise build the Account Token, dispatch
`data/addGiteaToken` and return it. -/
def startOauth2 (env : Env) (serverUrl applicationId applicationSecret : String)
    (sub : Option String) (silent : Bool) (refreshTok : Option String) :
    List Event × Except ErrVal Token :=
  match acquireTokenBody env serverUrl silent refreshTok with
  | (evs1, Except.error e) => (evs1, Except.error e)
  | (evs1, Except.ok tokenBody) =>
    match env.userEndpoint with
    | Except.error e => (evs1 ++ [Event.userRequest serverUrl], Except.error e)
    | Except.ok user =>
      let uniqueSub := serverUrl ++ "/" ++ user.username
      let evs2 := evs1 ++
        [Event.userRequest serverUrl,
         Event.addUserInfo (subTag ++ ":" ++ uniqueSub) user.username
           (user.avatar_url.getD "")]
      if jsTruthyStr sub ∧ some uniqueSub ≠ sub then
        (evs2, Except.error giteaAccountMismatch)
      else
        let token : Token :=
          { accessToken := tokenBody.access_token
            name := user.username
            applicationId := applicationId
            applicationSecret := applicationSecret
            refreshToken := tokenBody.refresh_token
            expiresOn := some (env.now + tokenBody.expires_in * 1000)
            serverUrl := serverUrl
            sub := uniqueSub }
        (evs2 ++ [Event.addGiteaToken token], Except.ok token)

/-- Source: `refreshToken(token)` — look up the stored token for the passed
token's `sub` (a `TypeError` when there is none); when the stored token's
`expiresOn` is falsy (legacy), open the `providerRedirection` modal and run
interactive `startOauth2`; when `expiresOn > Date.now() + margin`, return the
stored token unchanged; otherwise try a silent `startOauth2` with the stored
refresh token, and on failure either rethrow (offline) or open the modal and
run interactive `startOauth2`. -/
def refreshToken (env : Env) (token : Token) :
    List Event × Except ErrVal Token :=
  match env.tokensBySub token.sub with
  | none => ([], Except.error jsTypeError)
  | some lastToken =>
    if jsTruthyInt lastToken.expiresOn = false then
      let r := startOauth2 env token.serverUrl token.applicationId
        token.applicationSecret (some token.sub) false none
      (Event.modalOpen "providerRedirection" "Gitea" :: r.1, r.2)
    else if lastToken.expiresOn.getD 0 > env.now + tokenExpirationMargin then
      ([], Except.ok lastToken)
    else
      let r := startOauth2 env token.serverUrl token.applicationId
        token.applicationSecret (some token.sub) true lastToken.refreshToken
      match r.2 with
      | Except.ok t => (r.1, Except.ok t)
      | Except.error err =>
        if env.offline then (r.1, Except.error err)
        else
          let r2 := startOauth2 env token.serverUrl token.applicationId
            token.applicationSecret (some token.sub) false none
          (r.1 ++ Event.modalOpen "providerRedirection" "Gitea" :: r2.1, r2.2)

/-- Source: `getProjectId({projectPath, projectId})` — return a truthy
`projectId` as-is, otherwise the last two segments of `projectPath`
(a `TypeError` when the regex does not match). -/
def getProjectId (projectPath : String) (projectId : Option String) :
    Except ErrVal String :=
  if jsTruthyStr projectId then Except.ok (projectId.getD "")
  else
    match lastTwoSegments projectPath with
    | none => Except.error jsTypeError
    | some repoFullName => Except.ok repoFullName

/-- Source: `getTree({token, projectId, branch})` — refresh the token, then
`GET repos/{projectId}/git/trees/{branch}?recursive=true&per_page=9999`. -/
def getTree (env : Env) (token : Token) (projectId branch : String) :
    List Event × Except ErrVal ApiResp :=
  match refreshToken env token with
  | (evs, Except.error e) => (evs, Except.error e)
  | (evs, Except.ok _refreshedToken) =>
    let url := "repos/" ++ projectId ++ "/git/trees/" ++ branch
    (evs ++ [Event.apiRequest "GET" url
        [("recursive", "true"), ("per_page", "9999")] none],
     env.apiResult "GET" url)

/-- Source: `getCommits({token, projectId, branch, path})` — refresh the
token, then `GET repos/{projectId}/commits?sha={branch}&path={path}`. -/
def getCommits (env : Env) (token : Token) (projectId branch path : String) :
    List Event × Except ErrVal ApiResp :=
  match refreshToken env token with
  | (evs, Except.error e) => (evs, Except.error e)
  | (evs, Except.ok _refreshedToken) =>
    let url := "repos/" ++ projectId ++ "/commits"
    (evs ++ [Event.apiRequest "GET" url [("sha", branch), ("path", path)] none],
     env.apiResult "GET" url)

/-- Source: `uploadFile({token, projectId, branch, path, content, sha})` —
refresh the token, then `PUT` (truthy `sha`) or `POST` (falsy `sha`) to
`repos/{projectId}/contents/{encodeURIComponent(path)}` with body
`{message, content: base64, sha, branch}`. -/
def uploadFile (env : Env) (token : Token)
    (projectId branch path content : String) (sha : Option String) :
    List Event × Except ErrVal ApiResp :=
  match refreshToken env token with
  | (evs, Except.error e) => (evs, Except.error e)
  | (evs, Except.ok _refreshedToken) =>
    let method := if jsTruthyStr sha then "PUT" else "POST"
    let url := "repos/" ++ projectId ++ "/contents/" ++ env.encodeURIComponent path
    let body : ContentsBody :=
      { message := getCommitMessage env
          (if jsTruthyStr sha then "updateFileMessage" else "createFileMessage")
          path
        content := some (env.encodeBase64 content)
        sha := sha
        branch := branch }
    (evs ++ [Event.apiRequest method url [] (some body)],
     env.apiResult method url)

/-- Source: `removeFile({token, projectId, branch, path, sha})` — refresh the
token, then `DELETE repos/{projectId}/contents/{encodeURIComponent(path)}`
with body `{message, sha, branch}`. -/
def removeFile (env : Env) (token : Token)
    (projectId branch path : String) (sha : Option String) :
    List Event × Except ErrVal ApiResp :=
  match refreshToken env token with
  | (evs, Except.error e) => (evs, Except.error e)
  | (evs, Except.ok _refreshedToken) =>
    let url := "repos/" ++ projectId ++ "/contents/" ++ env.encodeURIComponent path
    let body : ContentsBody :=
      { message := getCommitMessage env "deleteFileMessage" path
        content := none
        sha := sha
        branch := branch }
    (evs ++ [Event.apiRequest "DELETE" url [] (some body)],
     env.apiResult "DELETE" url)

/-- Source: `downloadFile({token, projectId, branch, path})` — refresh the
token, `GET repos/{projectId}/contents/{encodeURIComponent(path)}?ref={branch}`,
and return `{sha, data: decodeBase64(content)}`. -/
def downloadFile (env : Env) (token : Token) (projectId branch path : String) :
    List Event × Except ErrVal (String × String) :=
  match refreshToken env token with
  | (evs, Except.error e) => (evs, Except.error e)
  | (evs, Except.ok _refreshedToken) =>
    let url := "repos/" ++ projectId ++ "/contents/" ++ env.encodeURIComponent path
    match env.apiResult "GET" url with
    | Except.error e =>
      (evs ++ [Event.apiRequest "GET" url [("ref", branch)] none], Except.error e)
    | Except.ok res =>
      (evs ++ [Event.apiRequest "GET" url [("ref", branch)] none],
       Except.ok (res.sha, env.decodeBase64 res.content))

/-! ## Helper lemmas -/

/-- Modal-open events, for counting prompts. -/
def isModalOpen : Event → Bool
  | .modalOpen _ _ => true
  | _ => false

/-- The first phase of `startOauth2` never dispatches `addGiteaToken`. -/
theorem acquireTokenBody_no_store_write (env : Env) (serverUrl : String)
    (silent : Bool) (rt : Option String) (t : Token) :
    Event.addGiteaToken t ∉ (acquireTokenBody env serverUrl silent rt).1 := by
  unfold acquireTokenBody
  split
  · rcases env.oauthCode with e | c <;> simp
  · simp

/-- The first phase of `startOauth2` issues no `refresh_token` exchange when
run interactively. -/
theorem acquireTokenBody_interactive_no_refresh_exchange (env : Env)
    (serverUrl : String) (rt : Option String) (s : String) :
    Event.tokenRequest s "refresh_token" ∉
      (acquireTokenBody env serverUrl false rt).1 := by
  unfold acquireTokenBody
  rcases env.oauthCode with e | c <;> simp

/-- The first phase of `startOauth2` never opens a modal. -/
theorem acquireTokenBody_no_modal (env : Env) (serverUrl : String)
    (silent : Bool) (rt : Option String) :
    (acquireTokenBody env serverUrl silent rt).1.filter isModalOpen = [] := by
  unfold acquireTokenBody
  split
  · rcases env.oauthCode with e | c <;> simp [isModalOpen]
  · simp [isModalOpen]

/-- Function `startOauth2` never opens a modal. -/
theorem startOauth2_no_modal (env : Env) (serverUrl a b : String)
    (sub : Option String) (silent : Bool) (rt : Option String) :
    (startOauth2 env serverUrl a b sub silent rt).1.filter isModalOpen = [] := by
  unfold startOauth2
  rcases hacq : acquireTokenBody env serverUrl silent rt with ⟨evs1, body⟩
  have hevs1 : evs1.filter isModalOpen = [] := by
    have h := acquireTokenBody_no_modal env serverUrl silent rt
    rw [hacq] at h
    exact h
  rcases body with e | tb
  · simp [hacq, hevs1]
  · rcases hu : env.userEndpoint with e | u
    · simp [hacq, hu, List.filter_append, hevs1, isModalOpen]
    · simp only [hacq, hu]
      split <;> simp [List.filter_append, hevs1, isModalOpen]

/-- Function `startOauth2` run interactively never issues a `refresh_token`
exchange. -/
theorem startOauth2_interactive_no_refresh_exchange (env : Env)
    (serverUrl a b : String) (sub : Option String) (rt : Option String)
    (s : String) :
    Event.tokenRequest s "refresh_token" ∉
      (startOauth2 env serverUrl a b sub false rt).1 := by
  unfold startOauth2
  rcases hacq : acquireTokenBody env serverUrl false rt with ⟨evs1, body⟩
  have hevs1 : Event.tokenRequest s "refresh_token" ∉ evs1 := by
    have h := acquireTokenBody_interactive_no_refresh_exchange env serverUrl rt s
    rw [hacq] at h
    exact h
  rcases body with e | tb
  · simp [hacq, hevs1]
  · rcases hu : env.userEndpoint with e | u
    · simp [hacq, hu, hevs1]
    · simp only [hacq, hu]
      split <;> simp [hevs1]

/-! ## Concrete fixtures for witnesses -/

/-- A user profile returned by the provider. -/
def aliceUser : UserProfile :=
  { username := "alice", avatar_url := some "https://img.example.com/a.png" }

/-- A successful token-endpoint response. -/
def freshBody : TokenBody :=
  { access_token := "a2", refresh_token := some "r2", expires_in := 3600 }

/-- A stored Account Token for alice, expiring at t = 2000000. -/
def storedTok : Token :=
  { accessToken := "a1"
    name := "alice"
    applicationId := "app"
    applicationSecret := "sec"
    refreshToken := some "r1"
    expiresOn := some 2000000
    serverUrl := "https://git.example.com"
    sub := "https://git.example.com/alice" }

/-- A benign environment: time 1000, online, alice's token stored, every
endpoint succeeding. -/
def baseEnv : Env :=
  { now := 1000
    offline := false
    tokensBySub := fun s => if s = storedTok.sub then some storedTok else none
    gitSettings := fun _ => "save \x7b\x7bpath\x7d\x7d"
    oauthCode := Except.ok "code1"
    codeExchange := Except.ok freshBody
    refreshExchange := fun _ => Except.ok freshBody
    userEndpoint := Except.ok aliceUser
    userLookup := fun _ _ => Except.ok aliceUser
    apiResult := fun _ _ => Except.ok { sha := "h1", content := "aGVsbG8=" }
    encodeBase64 := fun s => "b64:" ++ s
    decodeBase64 := fun s => "dec:" ++ s
    encodeURIComponent := fun s => s }

/-! ## Claims -/

/-- C1: for every stored token whose `expiresOn` exceeds the current time
plus the 5-minute margin, `refreshToken` returns that stored token object
unchanged and its event trace is empty — in particular it issues zero
network calls and performs no OAuth2 exchange. -/
theorem refreshToken_valid_token_unchanged_no_network (env : Env)
    (token lastToken : Token) (e : Int)
    (hstore : env.tokensBySub token.sub = some lastToken)
    (hexp : lastToken.expiresOn = some e)
    (hfresh : e > env.now + tokenExpirationMargin)
    (hnow : 0 ≤ env.now) :
    refreshToken env token = ([], Except.ok lastToken) := by
  have hne : e ≠ 0 := by
    have hm : (0 : Int) < tokenExpirationMargin := by decide
    omega
  unfold refreshToken
  rw [hstore]
  simp [hexp, jsTruthyInt, hne, hfresh]

/-- Witness for C1 at a concrete environment. -/
theorem refreshToken_valid_token_unchanged_no_network_witness :
    refreshToken baseEnv storedTok = ([], Except.ok storedTok) :=
  refreshToken_valid_token_unchanged_no_network baseEnv storedTok storedTok
    2000000 (by decide) rfl (by decide) (by decide)

/-- C2: for every stored token whose `expiresOn` is absent (legacy token),
`refreshToken` runs interactive re-authorization — its outcome is exactly
that of `startOauth2` with `silent = false` for the same sub, preceded by the
modal prompt — and its trace never contains a silent `refresh_token`
exchange. -/
theorem refreshToken_legacy_interactive_reauth (env : Env)
    (token lastToken : Token)
    (hstore : env.tokensBySub token.sub = some lastToken)
    (hlegacy : lastToken.expiresOn = none) :
    refreshToken env token =
      (Event.modalOpen "providerRedirection" "Gitea" ::
        (startOauth2 env token.serverUrl token.applicationId
          token.applicationSecret (some token.sub) false none).1,
       (startOauth2 env token.serverUrl token.applicationId
          token.applicationSecret (some token.sub) false none).2) ∧
    ∀ s, Event.tokenRequest s "refresh_token" ∉ (refreshToken env token).1 := by
  have heq : refreshToken env token =
      (Event.modalOpen "providerRedirection" "Gitea" ::
        (startOauth2 env token.serverUrl token.applicationId
          token.applicationSecret (some token.sub) false none).1,
       (startOauth2 env token.serverUrl token.applicationId
          token.applicationSecret (some token.sub) false none).2) := by
    simp [refreshToken, hstore, hlegacy, jsTruthyInt]
  refine ⟨heq, fun s => ?_⟩
  rw [heq]
  simp only [List.mem_cons]
  rintro (h | h)
  · exact Event.noConfusion h
  · exact startOauth2_interactive_no_refresh_exchange env token.serverUrl
      token.applicationId token.applicationSecret (some token.sub) none s h

/-- A legacy stored token: no `expiresOn`. -/
def legacyTok : Token := { storedTok with expiresOn := none }

/-- Environment whose Token Store holds the legacy token for alice. -/
def legacyEnv : Env :=
  { baseEnv with
    tokensBySub := fun s => if s = storedTok.sub then some legacyTok else none }

/-- Witness for C2 at a concrete environment. -/
theorem refreshToken_legacy_interactive_reauth_witness :
    refreshToken legacyEnv storedTok =
      (Event.modalOpen "providerRedirection" "Gitea" ::
        (startOauth2 legacyEnv storedTok.serverUrl storedTok.applicationId
          storedTok.applicationSecret (some storedTok.sub) false none).1,
       (startOauth2 legacyEnv storedTok.serverUrl storedTok.applicationId
          storedTok.applicationSecret (some storedTok.sub) false none).2) ∧
    Event.tokenRequest "https://git.example.com" "refresh_token" ∉
      (refreshToken legacyEnv storedTok).1 :=
  ⟨(refreshToken_legacy_interactive_reauth legacyEnv storedTok legacyTok
      (by decide) rfl).1,
   (refreshToken_legacy_interactive_reauth legacyEnv storedTok legacyTok
      (by decide) rfl).2 "https://git.example.com"⟩

/-- C3: when `startOauth2` is called with a (truthy) expected `sub` and the
sub resolved from the provider's current-user endpoint differs from it, the
operation rejects with the identity-mismatch error and no `addGiteaToken`
dispatch ever occurs in its trace. -/
theorem startOauth2_sub_mismatch_rejects_no_store_write (env : Env)
    (serverUrl a b s : String) (silent : Bool) (rt : Option String)
    (evs1 : List Event) (tb : TokenBody) (user : UserProfile)
    (hbody : acquireTokenBody env serverUrl silent rt = (evs1, Except.ok tb))
    (huser : env.userEndpoint = Except.ok user)
    (hs : s ≠ "")
    (hdiff : serverUrl ++ "/" ++ user.username ≠ s) :
    (startOauth2 env serverUrl a b (some s) silent rt).2 =
        Except.error giteaAccountMismatch ∧
    ∀ t, Event.addGiteaToken t ∉ (startOauth2 env serverUrl a b (some s) silent rt).1 := by
  have hevs1 : ∀ t : Token, Event.addGiteaToken t ∉ evs1 := by
    intro t
    have h := acquireTokenBody_no_store_write env serverUrl silent rt t
    rw [hbody] at h
    exact h
  constructor
  · simp [startOauth2, hbody, huser, jsTruthyStr, hs, hdiff]
  · intro t
    simp [startOauth2, hbody, huser, jsTruthyStr, hs, hdiff, hevs1 t]

/-- Witness for C3: re-authorizing expecting bob while the provider resolves
alice. -/
theorem startOauth2_sub_mismatch_rejects_no_store_write_witness :
    (startOauth2 baseEnv "https://git.example.com" "app" "sec"
        (some "https://git.example.com/bob") false none).2 =
      Except.error giteaAccountMismatch ∧
    ∀ t, Event.addGiteaToken t ∉
      (startOauth2 baseEnv "https://git.example.com" "app" "sec"
        (some "https://git.example.com/bob") false none).1 :=
  startOauth2_sub_mismatch_rejects_no_store_write baseEnv
    "https://git.example.com" "app" "sec" "https://git.example.com/bob"
    false none
    [Event.oauthAuthorize "https://git.example.com" false,
     Event.tokenRequest "https://git.example.com" "authorization_code"]
    freshBody aliceUser (by decide) rfl (by decide) (by decide)

/-- C4: when the stored token is near expiry, the silent refresh attempt
fails, and the offline flag is true, `refreshToken` rejects with that same
failure and no modal is ever opened. -/
theorem refreshToken_offline_failure_propagates (env : Env)
    (token lastToken : Token) (e : Int) (err : ErrVal)
    (hstore : env.tokensBySub token.sub = some lastToken)
    (hexp : lastToken.expiresOn = some e)
    (hne : e ≠ 0)
    (hstale : ¬ e > env.now + tokenExpirationMargin)
    (hfail : (startOauth2 env token.serverUrl token.applicationId
      token.applicationSecret (some token.sub) true lastToken.refreshToken).2 =
      Except.error err)
    (hoff : env.offline = true) :
    (refreshToken env token).2 = Except.error err ∧
    (refreshToken env token).1.filter isModalOpen = [] := by
  have heq : refreshToken env token =
      ((startOauth2 env token.serverUrl token.applicationId
          token.applicationSecret (some token.sub) true lastToken.refreshToken).1,
       Except.error err) := by
    simp [refreshToken, hstore, hexp, jsTruthyInt, hne, hstale, hfail, hoff]
  refine ⟨by rw [heq], ?_⟩
  rw [heq]
  exact startOauth2_no_modal env token.serverUrl token.applicationId
    token.applicationSecret (some token.sub) true lastToken.refreshToken

/-- An environment in which alice's stored token is expired, the refresh
exchange is rejected with a 401, and the system is offline. -/
def offlineFailEnv : Env :=
  { baseEnv with
    now := 5000000
    offline := true
    refreshExchange := fun _ =>
      Except.error { status := some 401, message := "invalid_grant" } }

/-- Witness for C4 at a concrete environment. -/
theorem refreshToken_offline_failure_propagates_witness :
    (refreshToken offlineFailEnv storedTok).2 =
      Except.error { status := some 401, message := "invalid_grant" } ∧
    (refreshToken offlineFailEnv storedTok).1.filter isModalOpen = [] :=
  refreshToken_offline_failure_propagates offlineFailEnv storedTok storedTok
    2000000 { status := some 401, message := "invalid_grant" }
    (by decide) rfl (by decide) (by decide) (by decide) rfl

/-- C5: when the stored token is near expiry, the silent refresh attempt
fails, and the offline flag is false, the trace is the silent attempt's
trace, then exactly one modal prompt (`providerRedirection`/`Gitea`), then
the trace of the interactive `startOauth2` for the same sub, whose outcome
becomes the result. -/
theorem refreshToken_online_failure_one_modal_then_reauth (env : Env)
    (token lastToken : Token) (e : Int) (err : ErrVal)
    (hstore : env.tokensBySub token.sub = some lastToken)
    (hexp : lastToken.expiresOn = some e)
    (hne : e ≠ 0)
    (hstale : ¬ e > env.now + tokenExpirationMargin)
    (hfail : (startOauth2 env token.serverUrl token.applicationId
      token.applicationSecret (some token.sub) true lastToken.refreshToken).2 =
      Except.error err)
    (hon : env.offline = false) :
    refreshToken env token =
      ((startOauth2 env token.serverUrl token.applicationId
          token.applicationSecret (some token.sub) true lastToken.refreshToken).1 ++
        Event.modalOpen "providerRedirection" "Gitea" ::
        (startOauth2 env token.serverUrl token.applicationId
          token.applicationSecret (some token.sub) false none).1,
       (startOauth2 env token.serverUrl token.applicationId
          token.applicationSecret (some token.sub) false none).2) ∧
    ((refreshToken env token).1.filter isModalOpen).length = 1 := by
  have heq : refreshToken env token =
      ((startOauth2 env token.serverUrl token.applicationId
          token.applicationSecret (some token.sub) true lastToken.refreshToken).1 ++
        Event.modalOpen "providerRedirection" "Gitea" ::
        (startOauth2 env token.serverUrl token.applicationId
          token.applicationSecret (some token.sub) false none).1,
       (startOauth2 env token.serverUrl token.applicationId
          token.applicationSecret (some token.sub) false none).2) := by
    simp [refreshToken, hstore, hexp, jsTruthyInt, hne, hstale, hfail, hon]
  refine ⟨heq, ?_⟩
  rw [heq]
  simp [List.filter_append, startOauth2_no_modal, isModalOpen]

/-- Like `offlineFailEnv` but online. -/
def onlineFailEnv : Env := { offlineFailEnv with offline := false }

/-- Witness for C5 at a concrete environment. -/
theorem refreshToken_online_failure_one_modal_then_reauth_witness :
    refreshToken onlineFailEnv storedTok =
      ((startOauth2 onlineFailEnv storedTok.serverUrl storedTok.applicationId
          storedTok.applicationSecret (some storedTok.sub) true
          storedTok.refreshToken).1 ++
        Event.modalOpen "providerRedirection" "Gitea" ::
        (startOauth2 onlineFailEnv storedTok.serverUrl storedTok.applicationId
          storedTok.applicationSecret (some storedTok.sub) false none).1,
       (startOauth2 onlineFailEnv storedTok.serverUrl storedTok.applicationId
          storedTok.applicationSecret (some storedTok.sub) false none).2) ∧
    ((refreshToken onlineFailEnv storedTok).1.filter isModalOpen).length = 1 :=
  refreshToken_online_failure_one_modal_then_reauth onlineFailEnv storedTok
    storedTok 2000000 { status := some 401, message := "invalid_grant" }
    (by decide) rfl (by decide) (by decide) (by decide) rfl

/-- A successful first phase yields a body from the code exchange or the
refresh exchange, so its `expires_in` is positive whenever both endpoints
only hand out positive lifetimes. -/
theorem acquireTokenBody_ok_expiry_pos (env : Env) (serverUrl : String)
    (silent : Bool) (rt : Option String) (tb : TokenBody)
    (hpos1 : ∀ b, env.codeExchange = Except.ok b → 0 < b.expires_in)
    (hpos2 : ∀ r b, env.refreshExchange r = Except.ok b → 0 < b.expires_in)
    (h : (acquireTokenBody env serverUrl silent rt).2 = Except.ok tb) :
    0 < tb.expires_in := by
  unfold acquireTokenBody at h
  revert h
  split
  · rcases hc : env.oauthCode with e | c <;> intro h
    · simp at h
    · exact hpos1 tb h
  · intro h
    exact hpos2 rt tb h

/-- C6 (amended): every token dispatched to the store by a successful
`startOauth2` has `expiresOn` set to `now + expires_in * 1000`; provided the
token endpoint only returns positive `expires_in` values, that timestamp is
strictly greater than the current time.  (The unamended claim fails when the
endpoint returns `expires_in = 0`: the code performs no validation.) -/
theorem startOauth2_persisted_expiry_future (env : Env)
    (serverUrl a b : String) (sub : Option String) (silent : Bool)
    (rt : Option String) (t : Token) (e : Int)
    (hpos1 : ∀ tb, env.codeExchange = Except.ok tb → 0 < tb.expires_in)
    (hpos2 : ∀ r tb, env.refreshExchange r = Except.ok tb → 0 < tb.expires_in)
    (hmem : Event.addGiteaToken t ∈ (startOauth2 env serverUrl a b sub silent rt).1)
    (hexp : t.expiresOn = some e) :
    env.now < e := by
  unfold startOauth2 at hmem
  rcases hacq : acquireTokenBody env serverUrl silent rt with ⟨evs1, err | tb⟩ <;>
    simp only [hacq] at hmem
  · exact absurd hmem (by
      have h := acquireTokenBody_no_store_write env serverUrl silent rt t
      rw [hacq] at h
      exact h)
  · have hpos : 0 < tb.expires_in := by
      refine acquireTokenBody_ok_expiry_pos env serverUrl silent rt tb hpos1 hpos2 ?_
      rw [hacq]
    have hnostore : Event.addGiteaToken t ∉ evs1 := by
      have h := acquireTokenBody_no_store_write env serverUrl silent rt t
      rw [hacq] at h
      exact h
    rcases hu : env.userEndpoint with err2 | u <;> simp only [hu] at hmem
    · simp at hmem
      exact absurd hmem hnostore
    · split at hmem
      · simp at hmem
        exact absurd hmem hnostore
      · simp at hmem
        rcases hmem with h | h
        · exact absurd h hnostore
        · have hEq : t.expiresOn = some (env.now + tb.expires_in * 1000) := by
            rw [h]
          rw [hexp] at hEq
          injection hEq with hEq
          omega

/-- The token acquired from `baseEnv` by an interactive `startOauth2`. -/
def acquiredTok : Token :=
  { accessToken := "a2"
    name := "alice"
    applicationId := "app"
    applicationSecret := "sec"
    refreshToken := some "r2"
    expiresOn := some 3601000
    serverUrl := "https://git.example.com"
    sub := "https://git.example.com/alice" }

/-- Witness for the amended C6 at a concrete environment. -/
theorem startOauth2_persisted_expiry_future_witness :
    Event.addGiteaToken acquiredTok ∈
      (startOauth2 baseEnv "https://git.example.com" "app" "sec" none false none).1 ∧
    acquiredTok.expiresOn = some 3601000 ∧
    baseEnv.now < 3601000 :=
  ⟨by decide, rfl,
   startOauth2_persisted_expiry_future baseEnv "https://git.example.com" "app"
     "sec" none false none acquiredTok 3601000
     (fun tb h => by
       simp only [baseEnv] at h
       injection h with h2
       rw [← h2]
       decide)
     (fun r tb h => by
       simp only [baseEnv] at h
       injection h with h2
       rw [← h2]
       decide)
     (by decide) rfl⟩

/-- A token-endpoint response with `expires_in = 0`. -/
def zeroExpiryBody : TokenBody :=
  { access_token := "a0", refresh_token := some "r0", expires_in := 0 }

/-- Environment whose code exchange returns `expires_in = 0`. -/
def zeroExpiryEnv : Env := { baseEnv with codeExchange := Except.ok zeroExpiryBody }

/-- The token `startOauth2` persists under `zeroExpiryEnv`. -/
def zeroExpiryTok : Token :=
  { accessToken := "a0"
    name := "alice"
    applicationId := "app"
    applicationSecret := "sec"
    refreshToken := some "r0"
    expiresOn := some 1000
    serverUrl := "https://git.example.com"
    sub := "https://git.example.com/alice" }

/-- Counterexample to C6 as stated: a fully successful acquisition (the
token endpoint reports `expires_in = 0`) persists and returns a token whose
`expiresOn` is present and equals the current time — not strictly greater
than it. -/
theorem startOauth2_expiry_not_future_counterexample :
    Event.addGiteaToken zeroExpiryTok ∈
      (startOauth2 zeroExpiryEnv "https://git.example.com" "app" "sec"
        none false none).1 ∧
    (startOauth2 zeroExpiryEnv "https://git.example.com" "app" "sec"
        none false none).2 = Except.ok zeroExpiryTok ∧
    zeroExpiryTok.expiresOn = some zeroExpiryEnv.now ∧
    ¬ zeroExpiryEnv.now < zeroExpiryEnv.now := by decide

/-- C7: `uploadFile` with `sha` unset issues a create call (`POST`), and with
`sha` set to a (truthy) hash issues an update call (`PUT`) whose body carries
that same `sha`; in both cases the call follows the refreshed token's trace. -/
theorem uploadFile_create_vs_update (env : Env) (token rt : Token)
    (projectId branch path content : String) (sha : Option String)
    (evs : List Event)
    (hrefresh : refreshToken env token = (evs, Except.ok rt)) :
    (sha = none →
      uploadFile env token projectId branch path content sha =
        (evs ++ [Event.apiRequest "POST"
            ("repos/" ++ projectId ++ "/contents/" ++ env.encodeURIComponent path)
            []
            (some { message := getCommitMessage env "createFileMessage" path
                    content := some (env.encodeBase64 content)
                    sha := none
                    branch := branch })],
         env.apiResult "POST"
           ("repos/" ++ projectId ++ "/contents/" ++ env.encodeURIComponent path))) ∧
    (∀ s, sha = some s → s ≠ "" →
      uploadFile env token projectId branch path content sha =
        (evs ++ [Event.apiRequest "PUT"
            ("repos/" ++ projectId ++ "/contents/" ++ env.encodeURIComponent path)
            []
            (some { message := getCommitMessage env "updateFileMessage" path
                    content := some (env.encodeBase64 content)
                    sha := some s
                    branch := branch })],
         env.apiResult "PUT"
           ("repos/" ++ projectId ++ "/contents/" ++ env.encodeURIComponent path))) := by
  constructor
  · intro hnone
    subst hnone
    simp [uploadFile, hrefresh, jsTruthyStr]
  · intro s hsome hne
    subst hsome
    simp [uploadFile, hrefresh, jsTruthyStr, hne]

/-- Witness for C7 at a concrete environment: a create and an update. -/
theorem uploadFile_create_vs_update_witness :
    uploadFile baseEnv storedTok "org/repo" "master" "f.md" "hello" none =
      ([] ++ [Event.apiRequest "POST"
          ("repos/" ++ "org/repo" ++ "/contents/" ++ baseEnv.encodeURIComponent "f.md")
          []
          (some { message := getCommitMessage baseEnv "createFileMessage" "f.md"
                  content := some (baseEnv.encodeBase64 "hello")
                  sha := none
                  branch := "master" })],
       baseEnv.apiResult "POST"
         ("repos/" ++ "org/repo" ++ "/contents/" ++ baseEnv.encodeURIComponent "f.md")) ∧
    uploadFile baseEnv storedTok "org/repo" "master" "f.md" "hello" (some "h1") =
      ([] ++ [Event.apiRequest "PUT"
          ("repos/" ++ "org/repo" ++ "/contents/" ++ baseEnv.encodeURIComponent "f.md")
          []
          (some { message := getCommitMessage baseEnv "updateFileMessage" "f.md"
                  content := some (baseEnv.encodeBase64 "hello")
                  sha := some "h1"
                  branch := "master" })],
       baseEnv.apiResult "PUT"
         ("repos/" ++ "org/repo" ++ "/contents/" ++ baseEnv.encodeURIComponent "f.md")) :=
  ⟨(uploadFile_create_vs_update baseEnv storedTok storedTok "org/repo" "master"
      "f.md" "hello" none [] (by decide)).1 rfl,
   (uploadFile_create_vs_update baseEnv storedTok storedTok "org/repo" "master"
      "f.md" "hello" (some "h1") [] (by decide)).2 "h1" rfl (by decide)⟩

/-- C8: when the profile lookup fails, the registered identity resolver
rejects with the original error exactly when the failure carries HTTP status
404, and with the retry-classified `Error('RETRY')` for every other failure;
it never succeeds on a failed lookup. -/
theorem giteaInfoResolver_404_terminal_else_retry (env : Env)
    (sub serverUrl username : String) (e : ErrVal)
    (hparse : parseSub sub = some (serverUrl, username))
    (hfail : env.userLookup serverUrl username = Except.error e) :
    giteaInfoResolver env sub =
      Except.error (if e.status = some 404 then e else retryError) := by
  unfold giteaInfoResolver
  rw [hparse]
  simp only [hfail]
  by_cases h : e.status = some 404 <;> simp [h]

/-- Environment whose unauthenticated profile lookup 404s. -/
def lookup404Env : Env :=
  { baseEnv with userLookup := fun _ _ =>
      Except.error { status := some 404, message := "Not Found" } }

/-- Environment whose unauthenticated profile lookup fails with a 500. -/
def lookup500Env : Env :=
  { baseEnv with userLookup := fun _ _ =>
      Except.error { status := some 500, message := "Server Error" } }

/-- Witness for C8: a 404 is rethrown as-is, a 500 becomes `RETRY`. -/
theorem giteaInfoResolver_404_terminal_else_retry_witness :
    giteaInfoResolver lookup404Env "https://git.example.com/alice" =
      Except.error { status := some 404, message := "Not Found" } ∧
    giteaInfoResolver lookup500Env "https://git.example.com/alice" =
      Except.error retryError := by
  constructor
  · have h := giteaInfoResolver_404_terminal_else_retry lookup404Env
      "https://git.example.com/alice" "https://git.example.com" "alice"
      { status := some 404, message := "Not Found" } (by decide) rfl
    simpa using h
  · have h := giteaInfoResolver_404_terminal_else_retry lookup500Env
      "https://git.example.com/alice" "https://git.example.com" "alice"
      { status := some 500, message := "Server Error" } (by decide) rfl
    simpa using h

/-- C9: `getProjectId` returns a (truthy) `projectId` as-is, otherwise the
last two '/'-delimited segments of `projectPath`; in particular
`getProjectId {projectPath := "org/repo/sub", projectId := none}` returns
`"repo/sub"`. -/
theorem getProjectId_resolution (projectPath : String) (projectId : Option String) :
    (∀ pid, projectId = some pid → pid ≠ "" →
      getProjectId projectPath projectId = Except.ok pid) ∧
    (jsTruthyStr projectId = false →
      ∀ x y rest, (splitSlash projectPath).reverse = y :: x :: rest →
        x ≠ "" → y ≠ "" →
        getProjectId projectPath projectId = Except.ok (x ++ "/" ++ y)) ∧
    getProjectId "org/repo/sub" none = Except.ok "repo/sub" := by
  refine ⟨?_, ?_, by decide⟩
  · intro pid hp hne
    subst hp
    simp [getProjectId, jsTruthyStr, hne]
  · intro hfalsy x y rest hsplit hx hy
    simp [getProjectId, hfalsy, lastTwoSegments, hsplit, hx, hy]

/-- Witness for C9: a known id is returned as-is; a free-form path is cut to
its last two segments; the spec's scenario. -/
theorem getProjectId_resolution_witness :
    getProjectId "whatever" (some "42") = Except.ok "42" ∧
    getProjectId "a/b" none = Except.ok ("a" ++ "/" ++ "b") ∧
    getProjectId "org/repo/sub" none = Except.ok "repo/sub" :=
  ⟨(getProjectId_resolution "whatever" (some "42")).1 "42" rfl (by decide),
   (getProjectId_resolution "a/b" none).2.1 (by decide) "a" "b" [] (by decide)
     (by decide) (by decide),
   (getProjectId_resolution "org/repo/sub" none).2.2⟩

/-- C10: when the Token Store has no entry for the passed token's `sub`,
`refreshToken` throws the dereference `TypeError` with an empty trace (no
fallback acquisition, no network call), and hence every authenticated
operation rejects the same way. -/
theorem missing_stored_token_throws (env : Env) (token : Token)
    (projectId branch path content : String) (sha : Option String)
    (hmiss : env.tokensBySub token.sub = none) :
    refreshToken env token = ([], Except.error jsTypeError) ∧
    getTree env token projectId branch = ([], Except.error jsTypeError) ∧
    getCommits env token projectId branch path = ([], Except.error jsTypeError) ∧
    uploadFile env token projectId branch path content sha =
      ([], Except.error jsTypeError) ∧
    removeFile env token projectId branch path sha =
      ([], Except.error jsTypeError) ∧
    downloadFile env token projectId branch path =
      ([], Except.error jsTypeError) := by
  have h : refreshToken env token = ([], Except.error jsTypeError) := by
    simp [refreshToken, hmiss]
  exact ⟨h, by simp [getTree, h], by simp [getCommits, h],
    by simp [uploadFile, h], by simp [removeFile, h], by simp [downloadFile, h]⟩

/-- Environment with an empty Token Store. -/
def emptyStoreEnv : Env := { baseEnv with tokensBySub := fun _ => none }

/-- Witness for C10 at a concrete environment. -/
theorem missing_stored_token_throws_witness :
    refreshToken emptyStoreEnv storedTok = ([], Except.error jsTypeError) ∧
    getTree emptyStoreEnv storedTok "org/repo" "master" =
      ([], Except.error jsTypeError) ∧
    getCommits emptyStoreEnv storedTok "org/repo" "master" "f.md" =
      ([], Except.error jsTypeError) ∧
    uploadFile emptyStoreEnv storedTok "org/repo" "master" "f.md" "hello" none =
      ([], Except.error jsTypeError) ∧
    removeFile emptyStoreEnv storedTok "org/repo" "master" "f.md" (some "h1") =
      ([], Except.error jsTypeError) ∧
    downloadFile emptyStoreEnv storedTok "org/repo" "master" "f.md" =
      ([], Except.error jsTypeError) :=
  missing_stored_token_throws emptyStoreEnv storedTok "org/repo" "master"
    "f.md" "hello" none rfl

end GiteaHelper
